import Mathlib

/-!
Shallow embedding of the crowdfunding contracts
(`contracts/PrivacyCrowdfunding.sol`, and the `FHEAnonymousCrowdfunding`
variant for the refund-equivalence comparison).

Addresses are modelled as `Nat` (0 is Solidity's `address(0)`, the
anonymous sentinel), amounts and timestamps as `Nat` (the spec treats them
as unbounded integers in the smallest currency unit), and Solidity
mappings as total functions with the all-zero default, exactly as the EVM
provides them.  Each external function becomes a Lean function returning
`Except CFError ...`; a `require` failure reverts, which the embedding
renders as returning an error and no new state.
-/

/-- A donation record, mirroring `struct Donation` in the contract. -/
structure Donation where
  campaignId : Nat
  donor : Nat
  amount : Nat
  timestamp : Nat
  isAnonymous : Bool
  deriving DecidableEq, Repr

/-- A campaign record, mirroring `struct Campaign`.  The trailing
`isAnonymous` field exists only in the `FHEAnonymousCrowdfunding` variant;
it is carried here and never read by any operation. -/
structure Campaign where
  id : Nat
  creator : Nat
  title : String
  description : String
  category : String
  goal : Nat
  raised : Nat
  deadline : Nat
  isActive : Bool
  goalReached : Bool
  fundsWithdrawn : Bool
  isAnonymous : Bool
  deriving DecidableEq, Repr

/-- The all-zero campaign, the default value a Solidity mapping yields for
an unallocated key. -/
def zeroCampaign : Campaign :=
  { id := 0, creator := 0, title := "", description := "", category := ""
  , goal := 0, raised := 0, deadline := 0
  , isActive := false, goalReached := false, fundsWithdrawn := false
  , isAnonymous := false }

instance : Inhabited Campaign := ⟨zeroCampaign⟩

/-- Contract storage: the four mappings and the counters. -/
structure CFState where
  campaigns : Nat → Campaign
  campaignDonations : Nat → List Donation
  userCampaigns : Nat → List Nat
  userDonations : Nat → List Nat
  campaignCounter : Nat
  totalCampaigns : Nat
  totalDonations : Nat

/-- Pointwise update of a mapping, as a storage write `m[k] = v`. -/
def updFn {α : Type} (f : Nat → α) (k : Nat) (v : α) : Nat → α :=
  fun x => if x = k then v else f x

/-- The error kinds of the operations, named as in the spec taxonomy. -/
inductive CFError where
  | InvalidInput
  | CampaignNotFound
  | Unauthorized
  | CampaignInactive
  | CampaignEnded
  | InvalidAmount
  | GoalNotReached
  | AlreadyWithdrawn
  | NothingToWithdraw
  | NothingToRefund
  | CampaignNotEnded
  | GoalWasReached
  deriving DecidableEq, Repr

/-- The platform fee numerator, `platformFee = 10` (1% of 1000). -/
def platformFee : Nat := 10

/-- State change performed by a successful `createCampaign`. -/
def createApply (s : CFState) (sender : Nat)
    (title descr category : String) (goal durationDays : Nat)
    (isAnon : Bool) (now : Nat) : CFState :=
  let cid := s.campaignCounter
  let c : Campaign :=
    { id := cid, creator := sender, title := title, description := descr
    , category := category, goal := goal, raised := 0
    , deadline := now + durationDays * 86400
    , isActive := true, goalReached := false, fundsWithdrawn := false
    , isAnonymous := isAnon }
  { s with
    campaigns := updFn s.campaigns cid c
    userCampaigns := updFn s.userCampaigns sender (s.userCampaigns sender ++ [cid])
    campaignCounter := cid + 1
    totalCampaigns := s.totalCampaigns + 1 }

/-- `createCampaign`: validates the inputs, then allocates the next id. -/
def createCampaign (s : CFState) (sender : Nat)
    (title descr category : String) (goal durationDays : Nat)
    (isAnon : Bool) (now : Nat) : Except CFError (Nat × CFState) :=
  if 0 < title.length ∧ 0 < descr.length ∧ 0 < goal ∧
      0 < durationDays ∧ durationDays ≤ 365 then
    .ok (s.campaignCounter, createApply s sender title descr category goal durationDays isAnon now)
  else
    .error .InvalidInput

/-- State change performed by a successful `donate`. -/
def donateApply (s : CFState) (cid sender amt : Nat) (isAnon : Bool)
    (now : Nat) : CFState :=
  let c := s.campaigns cid
  let c1 := { c with raised := c.raised + amt }
  let c2 := if c1.goal ≤ c1.raised ∧ c1.goalReached = false then
              { c1 with goalReached := true }
            else c1
  let d : Donation :=
    { campaignId := cid, donor := if isAnon then 0 else sender
    , amount := amt, timestamp := now, isAnonymous := isAnon }
  { s with
    campaigns := updFn s.campaigns cid c2
    campaignDonations := updFn s.campaignDonations cid (s.campaignDonations cid ++ [d])
    userDonations := if isAnon then s.userDonations
                     else updFn s.userDonations sender (s.userDonations sender ++ [cid])
    totalDonations := s.totalDonations + 1 }

/-- `donate`: the `campaignExists` and `campaignActive` modifiers, then the
positive-amount check, then the state change. -/
def donate (s : CFState) (cid sender amt : Nat) (isAnon : Bool)
    (now : Nat) : Except CFError CFState :=
  if cid < s.campaignCounter then
    if (s.campaigns cid).isActive = true then
      if now < (s.campaigns cid).deadline then
        if 0 < amt then
          .ok (donateApply s cid sender amt isAnon now)
        else .error .InvalidAmount
      else .error .CampaignEnded
    else .error .CampaignInactive
  else .error .CampaignNotFound

/-- State change performed by a successful `withdrawFunds`: only the two
flags move; `raised` is kept (the payout is returned separately). -/
def withdrawApply (s : CFState) (cid : Nat) : CFState :=
  { s with campaigns :=
      (updFn s.campaigns cid
        { s.campaigns cid with fundsWithdrawn := true, isActive := false }) }

/-- `withdrawFunds`: existence and creator checks, then the three requires,
in source order; returns the amount transferred to the creator. -/
def withdrawFunds (s : CFState) (cid sender : Nat) :
    Except CFError (Nat × CFState) :=
  if cid < s.campaignCounter then
    if (s.campaigns cid).creator = sender then
      if (s.campaigns cid).goalReached = true then
        if (s.campaigns cid).fundsWithdrawn = true then
          .error .AlreadyWithdrawn
        else if 0 < (s.campaigns cid).raised then
          .ok ((s.campaigns cid).raised - (s.campaigns cid).raised * platformFee / 1000,
               withdrawApply s cid)
        else .error .NothingToWithdraw
      else .error .GoalNotReached
    else .error .Unauthorized
  else .error .CampaignNotFound

/-- The refund loop of `PrivacyCrowdfunding.refund`: sums and zeroes every
record whose `donor` equals the caller (no check on the stored amount). -/
def refundScanPC (sender : Nat) : List Donation → Nat × List Donation
  | [] => (0, [])
  | d :: ds =>
    if d.donor = sender then
      let p := refundScanPC sender ds
      (d.amount + p.1, { d with amount := 0 } :: p.2)
    else
      let p := refundScanPC sender ds
      (p.1, d :: p.2)

/-- The refund loop of `FHEAnonymousCrowdfunding.refund`: as above but a
record only matches when its stored amount is still positive. -/
def refundScanFHE (sender : Nat) : List Donation → Nat × List Donation
  | [] => (0, [])
  | d :: ds =>
    if d.donor = sender ∧ 0 < d.amount then
      let p := refundScanFHE sender ds
      (d.amount + p.1, { d with amount := 0 } :: p.2)
    else
      let p := refundScanFHE sender ds
      (p.1, d :: p.2)

/-- State change performed by a successful `refund`: the campaign's
`raised` drops by the refunded total and the donation list is replaced by
its zeroed version. -/
def refundApply (s : CFState) (cid total : Nat) (ds : List Donation) : CFState :=
  { s with
    campaigns := (updFn s.campaigns cid
      { s.campaigns cid with raised := (s.campaigns cid).raised - total })
    campaignDonations := updFn s.campaignDonations cid ds }

/-- `refund` of `PrivacyCrowdfunding`: existence check, the three requires,
the scan, then the positive-total require; returns the amount transferred
back to the caller. -/
def refund (s : CFState) (cid sender now : Nat) :
    Except CFError (Nat × CFState) :=
  if cid < s.campaignCounter then
    if (s.campaigns cid).deadline ≤ now then
      if (s.campaigns cid).goalReached = false then
        if (s.campaigns cid).fundsWithdrawn = false then
          let p := refundScanPC sender (s.campaignDonations cid)
          if 0 < p.1 then
            .ok (p.1, refundApply s cid p.1 p.2)
          else .error .NothingToRefund
        else .error .AlreadyWithdrawn
      else .error .GoalWasReached
    else .error .CampaignNotEnded
  else .error .CampaignNotFound

/-- `refund` of `FHEAnonymousCrowdfunding`: identical except its loop also
requires the stored amount to be positive. -/
def refundFHE (s : CFState) (cid sender now : Nat) :
    Except CFError (Nat × CFState) :=
  if cid < s.campaignCounter then
    if (s.campaigns cid).deadline ≤ now then
      if (s.campaigns cid).goalReached = false then
        if (s.campaigns cid).fundsWithdrawn = false then
          let p := refundScanFHE sender (s.campaignDonations cid)
          if 0 < p.1 then
            .ok (p.1, refundApply s cid p.1 p.2)
          else .error .NothingToRefund
        else .error .AlreadyWithdrawn
      else .error .GoalWasReached
    else .error .CampaignNotEnded
  else .error .CampaignNotFound

/-- `emergencyPause`: existence and creator checks, then deactivation. -/
def emergencyPause (s : CFState) (cid sender : Nat) :
    Except CFError CFState :=
  if cid < s.campaignCounter then
    if (s.campaigns cid).creator = sender then
      .ok { s with campaigns :=
              (updFn s.campaigns cid { s.campaigns cid with isActive := false }) }
    else .error .Unauthorized
  else .error .CampaignNotFound

/-- The freshly deployed contract: empty mappings, zero counters. -/
def initState : CFState :=
  { campaigns := fun _ => zeroCampaign
  , campaignDonations := fun _ => []
  , userCampaigns := fun _ => []
  , userDonations := fun _ => []
  , campaignCounter := 0
  , totalCampaigns := 0
  , totalDonations := 0 }

/-- One successful external call on the contract, any arguments. -/
inductive Step : CFState → CFState → Prop where
  | create {s : CFState} {sender : Nat} {title descr category : String}
      {goal durationDays : Nat} {isAnon : Bool} {now cid : Nat} {s' : CFState} :
      createCampaign s sender title descr category goal durationDays isAnon now
        = .ok (cid, s') → Step s s'
  | don {s : CFState} {cid sender amt : Nat} {isAnon : Bool} {now : Nat}
      {s' : CFState} :
      donate s cid sender amt isAnon now = .ok s' → Step s s'
  | withdraw {s : CFState} {cid sender amt : Nat} {s' : CFState} :
      withdrawFunds s cid sender = .ok (amt, s') → Step s s'
  | ref {s : CFState} {cid sender now amt : Nat} {s' : CFState} :
      refund s cid sender now = .ok (amt, s') → Step s s'
  | pause {s : CFState} {cid sender : Nat} {s' : CFState} :
      emergencyPause s cid sender = .ok s' → Step s s'

/-- States reachable from deployment by successful calls. -/
inductive Reachable : CFState → Prop where
  | init : Reachable initState
  | step {s s' : CFState} : Reachable s → Step s s' → Reachable s'

/-- Sum of the `amount` fields of a donation list. -/
def sumAmounts : List Donation → Nat
  | [] => 0
  | d :: ds => d.amount + sumAmounts ds

lemma sumAmounts_append (ds : List Donation) (d : Donation) :
    sumAmounts (ds ++ [d]) = sumAmounts ds + d.amount := by
  induction ds with
  | nil => simp [sumAmounts]
  | cons e es ih => simp [sumAmounts, ih]; omega

lemma refundScanPC_sum (sender : Nat) (ds : List Donation) :
    (refundScanPC sender ds).1 + sumAmounts (refundScanPC sender ds).2
      = sumAmounts ds := by
  induction ds with
  | nil => simp [refundScanPC, sumAmounts]
  | cons e es ih =>
    simp only [refundScanPC]
    split
    · simp only [sumAmounts]; omega
    · simp only [sumAmounts]; omega

lemma refundScanPC_eq_FHE (sender : Nat) (ds : List Donation) :
    refundScanPC sender ds = refundScanFHE sender ds := by
  induction ds with
  | nil => rfl
  | cons e es ih =>
    simp only [refundScanPC, refundScanFHE, ih]
    by_cases h : e.donor = sender
    · rcases ha : e.amount with _ | n
      · rw [if_pos h, if_neg (by simp [ha])]
        cases e
        simp_all
      · rw [if_pos h, if_pos ⟨h, by omega⟩]
    · rw [if_neg h, if_neg (by simp [h])]

lemma refundScanPC_fst_eq_filter (sender : Nat) (ds : List Donation) :
    (refundScanPC sender ds).1
      = sumAmounts (ds.filter (fun d => d.donor == sender)) := by
  induction ds with
  | nil => rfl
  | cons e es ih =>
    simp only [refundScanPC, List.filter]
    by_cases h : e.donor = sender
    · rw [if_pos h]
      simp [h, sumAmounts, ih]
    · rw [if_neg h]
      have hb : (e.donor == sender) = false := by simp [h]
      simp [hb, ih]

lemma refundScanPC_snd_eq_map (sender : Nat) (ds : List Donation) :
    (refundScanPC sender ds).2
      = ds.map (fun d => if d.donor = sender then { d with amount := 0 } else d) := by
  induction ds with
  | nil => rfl
  | cons e es ih =>
    simp only [refundScanPC, List.map]
    by_cases h : e.donor = sender
    · rw [if_pos h, if_pos h]; simp [ih]
    · rw [if_neg h, if_neg h]; simp [ih]

lemma sumAmounts_filter_nonzero (ds : List Donation) :
    sumAmounts (ds.filter (fun d => d.amount != 0)) = sumAmounts ds := by
  induction ds with
  | nil => rfl
  | cons e es ih =>
    simp only [List.filter]
    by_cases h : e.amount = 0
    · have hb : (e.amount != 0) = false := by simp [h]
      simp [hb, sumAmounts, h, ih]
    · have hb : (e.amount != 0) = true := by simp [h]
      simp [hb, sumAmounts, ih]

lemma createCampaign_ok {s : CFState} {sender : Nat} {t d c : String}
    {g dur : Nat} {anon : Bool} {now cid : Nat} {s' : CFState}
    (h : createCampaign s sender t d c g dur anon now = .ok (cid, s')) :
    cid = s.campaignCounter ∧ 0 < t.length ∧ 0 < d.length ∧ 0 < g ∧
    0 < dur ∧ dur ≤ 365 ∧
    s' = createApply s sender t d c g dur anon now := by
  unfold createCampaign at h
  split at h
  · rename_i hc
    simp only [Except.ok.injEq, Prod.mk.injEq] at h
    exact ⟨h.1.symm, hc.1, hc.2.1, hc.2.2.1, hc.2.2.2.1, hc.2.2.2.2, h.2.symm⟩
  · exact Except.noConfusion h

lemma donate_ok {s : CFState} {cid sender amt : Nat} {anon : Bool}
    {now : Nat} {s' : CFState}
    (h : donate s cid sender amt anon now = .ok s') :
    cid < s.campaignCounter ∧ (s.campaigns cid).isActive = true ∧
    now < (s.campaigns cid).deadline ∧ 0 < amt ∧
    s' = donateApply s cid sender amt anon now := by
  unfold donate at h
  split at h
  · split at h
    · split at h
      · split at h
        · rename_i h1 h2 h3 h4
          exact ⟨h1, h2, h3, h4, (Except.ok.inj h).symm⟩
        · exact Except.noConfusion h
      · exact Except.noConfusion h
    · exact Except.noConfusion h
  · exact Except.noConfusion h

lemma withdrawFunds_ok {s : CFState} {cid sender amt : Nat} {s' : CFState}
    (h : withdrawFunds s cid sender = .ok (amt, s')) :
    cid < s.campaignCounter ∧ (s.campaigns cid).creator = sender ∧
    (s.campaigns cid).goalReached = true ∧
    (s.campaigns cid).fundsWithdrawn = false ∧
    0 < (s.campaigns cid).raised ∧
    amt = (s.campaigns cid).raised - (s.campaigns cid).raised * platformFee / 1000 ∧
    s' = withdrawApply s cid := by
  unfold withdrawFunds at h
  split at h
  · split at h
    · split at h
      · split at h
        · exact Except.noConfusion h
        · split at h
          · rename_i h1 h2 h3 h4 h5
            simp only [Except.ok.injEq, Prod.mk.injEq] at h
            exact ⟨h1, h2, h3, Bool.not_eq_true _ ▸ h4, h5, h.1.symm, h.2.symm⟩
          · exact Except.noConfusion h
      · exact Except.noConfusion h
    · exact Except.noConfusion h
  · exact Except.noConfusion h

lemma refund_ok {s : CFState} {cid sender now amt : Nat} {s' : CFState}
    (h : refund s cid sender now = .ok (amt, s')) :
    cid < s.campaignCounter ∧ (s.campaigns cid).deadline ≤ now ∧
    (s.campaigns cid).goalReached = false ∧
    (s.campaigns cid).fundsWithdrawn = false ∧
    0 < (refundScanPC sender (s.campaignDonations cid)).1 ∧
    amt = (refundScanPC sender (s.campaignDonations cid)).1 ∧
    s' = refundApply s cid (refundScanPC sender (s.campaignDonations cid)).1
           (refundScanPC sender (s.campaignDonations cid)).2 := by
  simp only [refund] at h
  split at h
  · split at h
    · split at h
      · split at h
        · split at h
          · rename_i h1 h2 h3 h4 h5
            simp only [Except.ok.injEq, Prod.mk.injEq] at h
            exact ⟨h1, h2, h3, h4, h5, h.1.symm, h.2.symm⟩
          · exact Except.noConfusion h
        · exact Except.noConfusion h
      · exact Except.noConfusion h
    · exact Except.noConfusion h
  · exact Except.noConfusion h

lemma emergencyPause_ok {s : CFState} {cid sender : Nat} {s' : CFState}
    (h : emergencyPause s cid sender = .ok s') :
    cid < s.campaignCounter ∧ (s.campaigns cid).creator = sender ∧
    s' = { s with campaigns :=
            (updFn s.campaigns cid
              { s.campaigns cid with isActive := false }) } := by
  unfold emergencyPause at h
  split at h
  · split at h
    · rename_i h1 h2
      exact ⟨h1, h2, (Except.ok.inj h).symm⟩
    · exact Except.noConfusion h
  · exact Except.noConfusion h

/-- The inductive invariant of the contract: accounting (`raised` equals
the sum of stored amounts), positive goals, positive `raised` once the
goal flag is set, `fundsWithdrawn` implies `goalReached`, no donations on
unallocated ids, and anonymous records carry the zero-address sentinel. -/
def CFInv (s : CFState) : Prop :=
  (∀ cid, cid < s.campaignCounter →
      (s.campaigns cid).raised = sumAmounts (s.campaignDonations cid) ∧
      0 < (s.campaigns cid).goal ∧
      ((s.campaigns cid).goalReached = true → 0 < (s.campaigns cid).raised) ∧
      ((s.campaigns cid).fundsWithdrawn = true → (s.campaigns cid).goalReached = true)) ∧
  (∀ cid, s.campaignCounter ≤ cid → s.campaignDonations cid = []) ∧
  (∀ cid d, d ∈ s.campaignDonations cid → d.isAnonymous = true → d.donor = 0) ∧
  (∀ cid, s.campaignCounter ≤ cid → s.campaigns cid = zeroCampaign)

lemma inv_init : CFInv initState := by
  refine ⟨?_, ?_, ?_, ?_⟩
  · intro cid hcid
    exact absurd hcid (by simp [initState])
  · intro cid _
    rfl
  · intro cid d hd
    simp [initState] at hd
  · intro cid _
    rfl

lemma inv_createApply {s : CFState} (hInv : CFInv s) (sender : Nat)
    (t d c : String) (g dur : Nat) (anon : Bool) (now : Nat) (hg : 0 < g) :
    CFInv (createApply s sender t d c g dur anon now) := by
  obtain ⟨H1, H2, H3, H4⟩ := hInv
  refine ⟨?_, ?_, ?_, ?_⟩
  · intro cid hcid
    simp only [createApply, updFn] at hcid ⊢
    by_cases hx : cid = s.campaignCounter
    · subst hx
      simp only [if_pos rfl]
      have hds : s.campaignDonations s.campaignCounter = [] := H2 _ le_rfl
      simp [hds, sumAmounts, hg]
    · rw [if_neg hx]
      exact H1 cid (by omega)
  · intro cid hcid
    simp only [createApply] at hcid ⊢
    exact H2 cid (by omega)
  · intro cid d hd
    simp only [createApply] at hd
    exact H3 cid d hd
  · intro cid hcid
    simp only [createApply, updFn] at hcid ⊢
    rw [if_neg (by omega)]
    exact H4 cid (by omega)

lemma donateApply_counter (s : CFState) (cid sender amt : Nat)
    (anon : Bool) (now : Nat) :
    (donateApply s cid sender amt anon now).campaignCounter
      = s.campaignCounter := rfl

lemma donateApply_campaigns_other {s : CFState} {cid sender amt : Nat}
    {anon : Bool} {now x : Nat} (hx : x ≠ cid) :
    (donateApply s cid sender amt anon now).campaigns x = s.campaigns x := by
  simp [donateApply, updFn, hx]

lemma donateApply_donations_other {s : CFState} {cid sender amt : Nat}
    {anon : Bool} {now x : Nat} (hx : x ≠ cid) :
    (donateApply s cid sender amt anon now).campaignDonations x
      = s.campaignDonations x := by
  simp [donateApply, updFn, hx]

lemma donateApply_donations_target (s : CFState) (cid sender amt : Nat)
    (anon : Bool) (now : Nat) :
    (donateApply s cid sender amt anon now).campaignDonations cid
      = s.campaignDonations cid ++
        [{ campaignId := cid, donor := if anon then 0 else sender
         , amount := amt, timestamp := now, isAnonymous := anon }] := by
  simp [donateApply, updFn]

lemma donateApply_campaigns_target (s : CFState) (cid sender amt : Nat)
    (anon : Bool) (now : Nat) :
    ((donateApply s cid sender amt anon now).campaigns cid).raised
        = (s.campaigns cid).raised + amt ∧
    ((donateApply s cid sender amt anon now).campaigns cid).goal
        = (s.campaigns cid).goal ∧
    ((donateApply s cid sender amt anon now).campaigns cid).goalReached
        = ((s.campaigns cid).goalReached
            || decide ((s.campaigns cid).goal ≤ (s.campaigns cid).raised + amt)) ∧
    ((donateApply s cid sender amt anon now).campaigns cid).fundsWithdrawn
        = (s.campaigns cid).fundsWithdrawn ∧
    ((donateApply s cid sender amt anon now).campaigns cid).creator
        = (s.campaigns cid).creator ∧
    ((donateApply s cid sender amt anon now).campaigns cid).deadline
        = (s.campaigns cid).deadline ∧
    ((donateApply s cid sender amt anon now).campaigns cid).isActive
        = (s.campaigns cid).isActive := by
  simp only [donateApply, updFn, if_pos rfl, if_true]
  split
  next hc =>
    obtain ⟨hA, hB⟩ := hc
    simp [hA, hB]
  next hc =>
    rcases hB : (s.campaigns cid).goalReached with _ | _
    · have hA : ¬ (s.campaigns cid).goal ≤ (s.campaigns cid).raised + amt :=
        fun hA => hc ⟨hA, hB⟩
      simp [hA, hB]
    · simp [hB]

lemma inv_donateApply {s : CFState} (hInv : CFInv s) (cid sender amt : Nat)
    (anon : Bool) (now : Nat) (hcid : cid < s.campaignCounter) (hamt : 0 < amt) :
    CFInv (donateApply s cid sender amt anon now) := by
  obtain ⟨H1, H2, H3, H4⟩ := hInv
  obtain ⟨hr, hg, hgr, hfw, _hcr, _hdl, _hia⟩ :=
    donateApply_campaigns_target s cid sender amt anon now
  refine ⟨?_, ?_, ?_, ?_⟩
  · intro x hx
    rw [donateApply_counter] at hx
    by_cases hxc : x = cid
    · subst hxc
      obtain ⟨i1, i2, i3, i4⟩ := H1 x hx
      refine ⟨?_, ?_, ?_, ?_⟩
      · rw [hr, donateApply_donations_target, sumAmounts_append, i1]
      · rw [hg]; exact i2
      · intro _
        rw [hr]; omega
      · intro hfw'
        rw [hfw] at hfw'
        rw [hgr, i4 hfw']
        simp
    · rw [donateApply_campaigns_other hxc, donateApply_donations_other hxc]
      exact H1 x hx
  · intro x hx
    rw [donateApply_counter] at hx
    rw [donateApply_donations_other (by omega)]
    exact H2 x hx
  · intro x d hd
    by_cases hxc : x = cid
    · subst hxc
      rw [donateApply_donations_target] at hd
      rcases List.mem_append.mp hd with hmem | hmem
      · exact H3 _ _ hmem
      · intro ha
        simp only [List.mem_singleton] at hmem
        subst hmem
        simp only at ha ⊢
        rw [ha]
        simp
    · rw [donateApply_donations_other hxc] at hd
      exact H3 _ _ hd
  · intro x hx
    rw [donateApply_counter] at hx
    rw [donateApply_campaigns_other (by omega)]
    exact H4 x hx

lemma inv_withdrawApply {s : CFState} (hInv : CFInv s) (cid : Nat)
    (hcid : cid < s.campaignCounter)
    (hgr : (s.campaigns cid).goalReached = true) :
    CFInv (withdrawApply s cid) := by
  obtain ⟨H1, H2, H3, H4⟩ := hInv
  refine ⟨?_, H2, H3, ?_⟩
  · intro x hx
    by_cases hxc : x = cid
    · subst hxc
      obtain ⟨i1, i2, i3, i4⟩ := H1 x hx
      simp only [withdrawApply, updFn, if_pos rfl, if_true]
      exact ⟨i1, i2, fun _ => i3 hgr, fun _ => hgr⟩
    · simp only [withdrawApply, updFn]
      rw [if_neg hxc]
      exact H1 x hx
  · intro x hx
    have hx' : s.campaignCounter ≤ x := hx
    simp only [withdrawApply, updFn]
    rw [if_neg (by omega)]
    exact H4 x hx'

lemma inv_refundApply {s : CFState} (hInv : CFInv s) (cid sender : Nat)
    (hcid : cid < s.campaignCounter)
    (hgr : (s.campaigns cid).goalReached = false)
    (hfw : (s.campaigns cid).fundsWithdrawn = false) :
    CFInv (refundApply s cid (refundScanPC sender (s.campaignDonations cid)).1
            (refundScanPC sender (s.campaignDonations cid)).2) := by
  obtain ⟨H1, H2, H3, H4⟩ := hInv
  refine ⟨?_, ?_, ?_, ?_⟩
  · intro x hx
    by_cases hxc : x = cid
    · subst hxc
      obtain ⟨i1, i2, i3, i4⟩ := H1 x hx
      simp only [refundApply, updFn, if_pos rfl, if_true]
      refine ⟨?_, i2, ?_, ?_⟩
      · have hsum := refundScanPC_sum sender (s.campaignDonations x)
        omega
      · intro hc
        rw [hgr] at hc
        exact absurd hc (by simp)
      · intro hc
        rw [hfw] at hc
        exact absurd hc (by simp)
    · simp only [refundApply, updFn]
      rw [if_neg hxc, if_neg hxc]
      exact H1 x hx
  · intro x hx
    have hx' : s.campaignCounter ≤ x := hx
    simp only [refundApply, updFn]
    rw [if_neg (by omega)]
    exact H2 x hx'
  · intro x d hd
    simp only [refundApply, updFn] at hd
    by_cases hxc : x = cid
    · subst hxc
      rw [if_pos rfl] at hd
      rw [refundScanPC_snd_eq_map] at hd
      obtain ⟨e, he, hde⟩ := List.mem_map.mp hd
      by_cases hes : e.donor = sender
      · rw [if_pos hes] at hde
        subst hde
        intro ha
        simp only at ha ⊢
        exact H3 _ _ he ha
      · rw [if_neg hes] at hde
        subst hde
        exact H3 _ _ he
    · rw [if_neg hxc] at hd
      exact H3 _ _ hd
  · intro x hx
    have hx' : s.campaignCounter ≤ x := hx
    simp only [refundApply, updFn]
    rw [if_neg (by omega)]
    exact H4 x hx'

lemma inv_pauseApply {s : CFState} (hInv : CFInv s) (cid : Nat)
    (hcid : cid < s.campaignCounter) :
    CFInv { s with campaigns :=
              (updFn s.campaigns cid
                { s.campaigns cid with isActive := false }) } := by
  obtain ⟨H1, H2, H3, H4⟩ := hInv
  refine ⟨?_, H2, H3, ?_⟩
  · intro x hx
    by_cases hxc : x = cid
    · subst hxc
      obtain ⟨i1, i2, i3, i4⟩ := H1 x hx
      simp only [updFn, if_pos rfl, if_true]
      exact ⟨i1, i2, i3, i4⟩
    · simp only [updFn]
      rw [if_neg hxc]
      exact H1 x hx
  · intro x hx
    have hx' : s.campaignCounter ≤ x := hx
    simp only [updFn]
    rw [if_neg (by omega)]
    exact H4 x hx'

/-- Every successful call preserves the invariant. -/
lemma inv_step {s s' : CFState} (hInv : CFInv s) (h : Step s s') : CFInv s' := by
  cases h with
  | create heq =>
    obtain ⟨_, _, _, hg, _, _, hs'⟩ := createCampaign_ok heq
    rw [hs']
    exact inv_createApply hInv _ _ _ _ _ _ _ _ hg
  | don heq =>
    obtain ⟨hcid, _, _, hamt, hs'⟩ := donate_ok heq
    rw [hs']
    exact inv_donateApply hInv _ _ _ _ _ hcid hamt
  | withdraw heq =>
    obtain ⟨hcid, _, hgr, _, _, _, hs'⟩ := withdrawFunds_ok heq
    rw [hs']
    exact inv_withdrawApply hInv _ hcid hgr
  | ref heq =>
    obtain ⟨hcid, _, hgr, hfw, _, _, hs'⟩ := refund_ok heq
    rw [hs']
    exact inv_refundApply hInv _ _ hcid hgr hfw
  | pause heq =>
    obtain ⟨hcid, _, hs'⟩ := emergencyPause_ok heq
    rw [hs']
    exact inv_pauseApply hInv _ hcid

/-- Every reachable state satisfies the invariant. -/
lemma inv_reachable {s : CFState} (h : Reachable s) : CFInv s := by
  induction h with
  | init => exact inv_init
  | step _ hstep ih => exact inv_step ih hstep

/-- Sum of the non-zeroed amount fields of a donation list (the spec's
observation `Σ(non-zeroed donation amounts)`). -/
def nonZeroedSum (ds : List Donation) : Nat :=
  sumAmounts (ds.filter (fun d => d.amount != 0))

/-- Sum of a caller's non-zeroed donation amounts. -/
def callerRefundableSum (sender : Nat) (ds : List Donation) : Nat :=
  sumAmounts (ds.filter (fun d => d.donor == sender && d.amount != 0))

/-- Sum of a caller's non-anonymous, non-zeroed donation amounts. -/
def callerNonAnonRefundableSum (sender : Nat) (ds : List Donation) : Nat :=
  sumAmounts (ds.filter (fun d => d.donor == sender && !d.isAnonymous && d.amount != 0))

lemma refundScanPC_fst_eq_callerSum (sender : Nat) (ds : List Donation) :
    (refundScanPC sender ds).1 = callerRefundableSum sender ds := by
  induction ds with
  | nil => rfl
  | cons e es ih =>
    simp only [refundScanPC]
    by_cases h : e.donor = sender
    · rw [if_pos h]
      by_cases ha : e.amount = 0
      · have hb : (e.donor == sender && e.amount != 0) = false := by simp [ha]
        simp [callerRefundableSum, List.filter, hb, ha] at ih ⊢
        exact ih
      · have hb : (e.donor == sender && e.amount != 0) = true := by simp [h, ha]
        simp [callerRefundableSum, List.filter, hb, sumAmounts] at ih ⊢
        omega
    · rw [if_neg h]
      have hb : (e.donor == sender && e.amount != 0) = false := by simp [h]
      simp [callerRefundableSum, List.filter, hb] at ih ⊢
      exact ih

lemma callerSum_eq_nonAnon (sender : Nat) (hs : sender ≠ 0) :
    ∀ ds : List Donation,
      (∀ d ∈ ds, d.isAnonymous = true → d.donor = 0) →
      callerRefundableSum sender ds = callerNonAnonRefundableSum sender ds := by
  intro ds
  induction ds with
  | nil => intro _; rfl
  | cons e es ih =>
    intro hanon
    have hes := ih (fun d hd => hanon d (List.mem_cons_of_mem _ hd))
    by_cases h : e.donor = sender
    · have hna : e.isAnonymous = false := by
        rcases hb : e.isAnonymous with _ | _
        · rfl
        · exact absurd (h.symm.trans (hanon e (List.mem_cons_self e es) hb)) hs
      by_cases ha : e.amount = 0
      · have hb1 : (e.donor == sender && e.amount != 0) = false := by simp [ha]
        have hb2 : (e.donor == sender && !e.isAnonymous && e.amount != 0) = false := by
          simp [ha]
        simp [callerRefundableSum, callerNonAnonRefundableSum, List.filter,
              hb1, hb2] at hes ⊢
        exact hes
      · have hb1 : (e.donor == sender && e.amount != 0) = true := by simp [h, ha]
        have hb2 : (e.donor == sender && !e.isAnonymous && e.amount != 0) = true := by
          simp [h, hna, ha]
        simp [callerRefundableSum, callerNonAnonRefundableSum, List.filter,
              hb1, hb2, sumAmounts] at hes ⊢
        omega
    · have hb1 : (e.donor == sender && e.amount != 0) = false := by simp [h]
      have hb2 : (e.donor == sender && !e.isAnonymous && e.amount != 0) = false := by
        simp [h]
      simp [callerRefundableSum, callerNonAnonRefundableSum, List.filter,
            hb1, hb2] at hes ⊢
      exact hes

lemma refund_reduce {s : CFState} {cid sender now : Nat}
    (hcid : cid < s.campaignCounter)
    (hdl : (s.campaigns cid).deadline ≤ now)
    (hgr : (s.campaigns cid).goalReached = false)
    (hfw : (s.campaigns cid).fundsWithdrawn = false) :
    refund s cid sender now =
      if 0 < (refundScanPC sender (s.campaignDonations cid)).1 then
        .ok ((refundScanPC sender (s.campaignDonations cid)).1,
             refundApply s cid (refundScanPC sender (s.campaignDonations cid)).1
               (refundScanPC sender (s.campaignDonations cid)).2)
      else .error .NothingToRefund := by
  unfold refund
  rw [if_pos hcid, if_pos hdl, if_pos hgr, if_pos hfw]

/-- Concrete run for witnesses: creator 1 opens a goal-100 campaign. -/
def sW1 : CFState :=
  match createCampaign initState 1 "Test" "Desc" "Cat" 100 1 false 0 with
  | .ok p => p.2
  | .error _ => initState

lemma createW1 :
    createCampaign initState 1 "Test" "Desc" "Cat" 100 1 false 0
      = .ok (0, sW1) := rfl

/-- Donor 2 gives 30 publicly; the goal stays unreached. -/
def sW2 : CFState :=
  match donate sW1 0 2 30 false 5 with
  | .ok s => s
  | .error _ => sW1

lemma donW2 : donate sW1 0 2 30 false 5 = .ok sW2 := rfl

lemma reachable_sW1 : Reachable sW1 :=
  Reachable.step Reachable.init (Step.create createW1)

lemma reachable_sW2 : Reachable sW2 :=
  Reachable.step reachable_sW1 (Step.don donW2)

/-- Second concrete run: creator 1 opens a goal-200 campaign. -/
def sX1 : CFState :=
  match createCampaign initState 1 "Goal" "Desc" "Cat" 200 1 false 0 with
  | .ok p => p.2
  | .error _ => initState

lemma createX1 :
    createCampaign initState 1 "Goal" "Desc" "Cat" 200 1 false 0
      = .ok (0, sX1) := rfl

/-- Donor 2 gives 200 publicly, which reaches the goal exactly. -/
def sX2 : CFState :=
  match donate sX1 0 2 200 false 5 with
  | .ok s => s
  | .error _ => sX1

lemma donX2 : donate sX1 0 2 200 false 5 = .ok sX2 := rfl

lemma reachable_sX1 : Reachable sX1 :=
  Reachable.step Reachable.init (Step.create createX1)

lemma reachable_sX2 : Reachable sX2 :=
  Reachable.step reachable_sX1 (Step.don donX2)

/-- The creator withdraws: 1% fee on 200 leaves a 198 payout. -/
def sX3 : CFState := withdrawApply sX2 0

lemma withX3 : withdrawFunds sX2 0 1 = .ok (198, sX3) := rfl

/-- Anonymous 40-unit donation used by the unlinkability witness. -/
def sWanon : CFState :=
  match donate sW1 0 2 40 true 5 with
  | .ok s => s
  | .error _ => sW1

lemma donWanon : donate sW1 0 2 40 true 5 = .ok sWanon := rfl

/-- C1: in every reachable state, each existing campaign's `raised` field
equals the sum of the non-zeroed amount fields of that campaign's
donation records. -/
theorem raised_matches_donation_ledger {s : CFState} (h : Reachable s)
    (cid : Nat) (hcid : cid < s.campaignCounter) :
    (s.campaigns cid).raised = nonZeroedSum (s.campaignDonations cid) := by
  obtain ⟨H1, _, _, _⟩ := inv_reachable h
  rw [nonZeroedSum, sumAmounts_filter_nonzero]
  exact (H1 cid hcid).1

theorem raised_matches_donation_ledger_witness :
    0 < sW2.campaignCounter ∧
    (sW2.campaigns 0).raised = nonZeroedSum (sW2.campaignDonations 0) :=
  ⟨by decide, raised_matches_donation_ledger reachable_sW2 0 (by decide)⟩

/-- C9: the `PrivacyCrowdfunding` refund and the `FHEAnonymousCrowdfunding`
refund agree on every state, campaign, caller and time: same refund
total, same post-state, same success or failure. -/
theorem refund_variants_equivalent (s : CFState) (cid sender now : Nat) :
    refund s cid sender now = refundFHE s cid sender now := by
  unfold refund refundFHE
  rw [refundScanPC_eq_FHE]

/-- C4: two anonymous donations by any two donors produce identical
post-states; the stored record carries the zero-address sentinel and no
donor's personal donation index is modified. -/
theorem anonymous_donation_unlinkable (s : CFState)
    (cid d1 d2 amt now : Nat) :
    donate s cid d1 amt true now = donate s cid d2 amt true now ∧
    (∀ s', donate s cid d1 amt true now = .ok s' →
        s'.userDonations = s.userDonations ∧
        s'.campaignDonations cid = s.campaignDonations cid ++
          [{ campaignId := cid, donor := 0, amount := amt, timestamp := now
           , isAnonymous := true }]) := by
  constructor
  · rfl
  · intro s' h
    obtain ⟨_, _, _, _, hs'⟩ := donate_ok h
    subst hs'
    exact ⟨rfl, by rw [donateApply_donations_target]; simp⟩

theorem anonymous_donation_unlinkable_witness :
    donate sW1 0 2 40 true 5 = donate sW1 0 3 40 true 5 ∧
    sWanon.userDonations = sW1.userDonations ∧
    sWanon.campaignDonations 0 = sW1.campaignDonations 0 ++
      [{ campaignId := 0, donor := 0, amount := 40, timestamp := 5
       , isAnonymous := true }] :=
  ⟨(anonymous_donation_unlinkable sW1 0 2 3 40 5).1,
   ((anonymous_donation_unlinkable sW1 0 2 3 40 5).2 sWanon donWanon).1,
   ((anonymous_donation_unlinkable sW1 0 2 3 40 5).2 sWanon donWanon).2⟩

/-- C6: donate succeeds exactly when the campaign exists, is active, the
deadline has not passed and the amount is positive; each violated
precondition yields the corresponding error, in source order, and
`goalReached` never blocks a donation. -/
theorem donate_precondition_errors (s : CFState) (cid sender amt : Nat)
    (anon : Bool) (now : Nat) :
    ((∃ s', donate s cid sender amt anon now = .ok s') ↔
        (cid < s.campaignCounter ∧ (s.campaigns cid).isActive = true ∧
         now < (s.campaigns cid).deadline ∧ 0 < amt)) ∧
    (¬ cid < s.campaignCounter →
        donate s cid sender amt anon now = .error .CampaignNotFound) ∧
    (cid < s.campaignCounter → (s.campaigns cid).isActive = false →
        donate s cid sender amt anon now = .error .CampaignInactive) ∧
    (cid < s.campaignCounter → (s.campaigns cid).isActive = true →
        (s.campaigns cid).deadline ≤ now →
        donate s cid sender amt anon now = .error .CampaignEnded) ∧
    (cid < s.campaignCounter → (s.campaigns cid).isActive = true →
        now < (s.campaigns cid).deadline → amt = 0 →
        donate s cid sender amt anon now = .error .InvalidAmount) := by
  refine ⟨⟨?_, ?_⟩, ?_, ?_, ?_, ?_⟩
  · rintro ⟨s', h⟩
    obtain ⟨h1, h2, h3, h4, _⟩ := donate_ok h
    exact ⟨h1, h2, h3, h4⟩
  · rintro ⟨h1, h2, h3, h4⟩
    refine ⟨donateApply s cid sender amt anon now, ?_⟩
    unfold donate
    rw [if_pos h1, if_pos h2, if_pos h3, if_pos h4]
  · intro h1
    unfold donate
    rw [if_neg h1]
  · intro h1 h2
    unfold donate
    rw [if_pos h1, if_neg (by simp [h2])]
  · intro h1 h2 h3
    unfold donate
    rw [if_pos h1, if_pos h2, if_neg (by omega)]
  · intro h1 h2 h3 h4
    unfold donate
    rw [if_pos h1, if_pos h2, if_pos h3, if_neg (by omega)]

theorem donate_precondition_errors_witness :
    (sX2.campaigns 0).goalReached = true ∧
    (∃ s', donate sX2 0 7 5 false 86000 = .ok s') :=
  ⟨by decide,
   (donate_precondition_errors sX2 0 7 5 false 86000).1.mpr
     ⟨by decide, by decide, by decide, by decide⟩⟩

/-- C7: createCampaign fails with InvalidInput exactly when the title or
description is empty, the goal is zero, or the duration is outside
[1, 365]; failures return no new state, and success allocates the next
sequential id, inserts the record with raised 0 and isActive true,
appends the id to the creator's campaign index, and returns the id. -/
theorem createCampaign_validation (s : CFState) (sender : Nat)
    (t d c : String) (g dur : Nat) (anon : Bool) (now : Nat) :
    ((t.length = 0 ∨ d.length = 0 ∨ g = 0 ∨ dur = 0 ∨ 365 < dur) →
        createCampaign s sender t d c g dur anon now = .error .InvalidInput) ∧
    ((0 < t.length ∧ 0 < d.length ∧ 0 < g ∧ 0 < dur ∧ dur ≤ 365) →
        createCampaign s sender t d c g dur anon now
          = .ok (s.campaignCounter, createApply s sender t d c g dur anon now) ∧
        (createApply s sender t d c g dur anon now).campaignCounter
          = s.campaignCounter + 1 ∧
        (createApply s sender t d c g dur anon now).campaigns s.campaignCounter
          = { id := s.campaignCounter, creator := sender, title := t
            , description := d, category := c, goal := g, raised := 0
            , deadline := now + dur * 86400, isActive := true
            , goalReached := false, fundsWithdrawn := false
            , isAnonymous := anon } ∧
        (createApply s sender t d c g dur anon now).userCampaigns sender
          = s.userCampaigns sender ++ [s.campaignCounter]) := by
  constructor
  · intro hbad
    unfold createCampaign
    rw [if_neg (by omega)]
  · intro hok
    refine ⟨?_, rfl, ?_, ?_⟩
    · unfold createCampaign
      rw [if_pos hok]
    · simp [createApply, updFn]
    · simp [createApply, updFn]

theorem createCampaign_validation_witness :
    createCampaign initState 1 "" "Desc" "Cat" 100 10 false 0
      = .error .InvalidInput ∧
    createCampaign sW1 1 "T2" "D2" "C2" 50 10 false 0
      = .ok (1, createApply sW1 1 "T2" "D2" "C2" 50 10 false 0) :=
  ⟨(createCampaign_validation initState 1 "" "Desc" "Cat" 100 10 false 0).1
     (Or.inl (by decide)),
   ((createCampaign_validation sW1 1 "T2" "D2" "C2" 50 10 false 0).2
     ⟨by decide, by decide, by decide, by decide, by decide⟩).1⟩

/-- C3: withdrawFunds succeeds exactly for the creator with the goal
reached, funds not yet withdrawn and positive raised, failing otherwise
with Unauthorized, GoalNotReached, AlreadyWithdrawn or NothingToWithdraw
in source order; success flags the campaign withdrawn and inactive and
pays `raised - raised * platformFee / 1000` (10/1000 = 1%, so raised 200
pays 198), and a second call fails with AlreadyWithdrawn. -/
theorem withdrawFunds_guards_and_effects (s : CFState) (cid sender : Nat)
    (hcid : cid < s.campaignCounter) :
    (¬ (s.campaigns cid).creator = sender →
        withdrawFunds s cid sender = .error .Unauthorized) ∧
    ((s.campaigns cid).creator = sender →
        (s.campaigns cid).goalReached = false →
        withdrawFunds s cid sender = .error .GoalNotReached) ∧
    ((s.campaigns cid).creator = sender →
        (s.campaigns cid).goalReached = true →
        (s.campaigns cid).fundsWithdrawn = true →
        withdrawFunds s cid sender = .error .AlreadyWithdrawn) ∧
    ((s.campaigns cid).creator = sender →
        (s.campaigns cid).goalReached = true →
        (s.campaigns cid).fundsWithdrawn = false →
        (s.campaigns cid).raised = 0 →
        withdrawFunds s cid sender = .error .NothingToWithdraw) ∧
    ((s.campaigns cid).creator = sender →
        (s.campaigns cid).goalReached = true →
        (s.campaigns cid).fundsWithdrawn = false →
        0 < (s.campaigns cid).raised →
        withdrawFunds s cid sender
          = .ok ((s.campaigns cid).raised
                   - (s.campaigns cid).raised * platformFee / 1000,
                 withdrawApply s cid) ∧
        ((withdrawApply s cid).campaigns cid).fundsWithdrawn = true ∧
        ((withdrawApply s cid).campaigns cid).isActive = false ∧
        withdrawFunds (withdrawApply s cid) cid sender
          = .error .AlreadyWithdrawn) := by
  refine ⟨?_, ?_, ?_, ?_, ?_⟩
  · intro h1
    unfold withdrawFunds
    rw [if_pos hcid, if_neg h1]
  · intro h1 h2
    unfold withdrawFunds
    rw [if_pos hcid, if_pos h1, if_neg (by simp [h2])]
  · intro h1 h2 h3
    unfold withdrawFunds
    rw [if_pos hcid, if_pos h1, if_pos h2, if_pos h3]
  · intro h1 h2 h3 h4
    unfold withdrawFunds
    rw [if_pos hcid, if_pos h1, if_pos h2, if_neg (by simp [h3]),
        if_neg (by omega)]
  · intro h1 h2 h3 h4
    have hw1 : ((withdrawApply s cid).campaigns cid).fundsWithdrawn = true := by
      simp [withdrawApply, updFn]
    have hw2 : ((withdrawApply s cid).campaigns cid).isActive = false := by
      simp [withdrawApply, updFn]
    have hw3 : ((withdrawApply s cid).campaigns cid).creator = sender := by
      simp [withdrawApply, updFn, h1]
    have hw4 : ((withdrawApply s cid).campaigns cid).goalReached = true := by
      simp [withdrawApply, updFn, h2]
    have hcid' : cid < (withdrawApply s cid).campaignCounter := hcid
    refine ⟨?_, hw1, hw2, ?_⟩
    · unfold withdrawFunds
      rw [if_pos hcid, if_pos h1, if_pos h2, if_neg (by simp [h3]), if_pos h4]
    · unfold withdrawFunds
      rw [if_pos hcid', if_pos hw3, if_pos hw4, if_pos hw1]

theorem withdrawFunds_guards_and_effects_witness :
    withdrawFunds sX2 0 1 = .ok (198, withdrawApply sX2 0) ∧
    withdrawFunds (withdrawApply sX2 0) 0 1 = .error .AlreadyWithdrawn := by
  obtain ⟨heq, _, _, hsecond⟩ :=
    (withdrawFunds_guards_and_effects sX2 0 1 (by decide)).2.2.2.2
      (by decide) (by decide) (by decide) (by decide)
  have hval : (sX2.campaigns 0).raised
      - (sX2.campaigns 0).raised * platformFee / 1000 = 198 := by decide
  exact ⟨by rw [heq, hval], hsecond⟩

/-- C2: for an existing campaign that is past its deadline with the goal
not reached and funds not withdrawn, refund computes the sum S of the
caller's non-zeroed donation amounts, fails with NothingToRefund when S
is zero, and otherwise pays the caller exactly S, zeroes exactly the
caller's records, and decreases `raised` by exactly S; records flagged
anonymous never contribute to S for any caller. -/
theorem refund_computes_callers_nonzeroed_sum {s : CFState}
    (h : Reachable s) (cid sender now : Nat)
    (hcid : cid < s.campaignCounter)
    (hdl : (s.campaigns cid).deadline ≤ now)
    (hgr : (s.campaigns cid).goalReached = false)
    (hfw : (s.campaigns cid).fundsWithdrawn = false)
    (hsender : sender ≠ 0) :
    (callerRefundableSum sender (s.campaignDonations cid)
       = callerNonAnonRefundableSum sender (s.campaignDonations cid)) ∧
    (callerRefundableSum sender (s.campaignDonations cid) = 0 →
       refund s cid sender now = .error .NothingToRefund) ∧
    (0 < callerRefundableSum sender (s.campaignDonations cid) →
       ∃ s', refund s cid sender now
               = .ok (callerRefundableSum sender (s.campaignDonations cid), s') ∧
         (s'.campaigns cid).raised
             + callerRefundableSum sender (s.campaignDonations cid)
           = (s.campaigns cid).raised ∧
         s'.campaignDonations cid
           = (s.campaignDonations cid).map
               (fun d => if d.donor = sender then { d with amount := 0 }
                         else d)) := by
  obtain ⟨H1, H2, H3, H4⟩ := inv_reachable h
  have hscan : (refundScanPC sender (s.campaignDonations cid)).1
      = callerRefundableSum sender (s.campaignDonations cid) :=
    refundScanPC_fst_eq_callerSum sender (s.campaignDonations cid)
  refine ⟨callerSum_eq_nonAnon sender hsender _ (H3 cid), ?_, ?_⟩
  · intro hS0
    rw [refund_reduce hcid hdl hgr hfw, if_neg (by omega)]
  · intro hSpos
    refine ⟨refundApply s cid (refundScanPC sender (s.campaignDonations cid)).1
              (refundScanPC sender (s.campaignDonations cid)).2, ?_, ?_, ?_⟩
    · rw [refund_reduce hcid hdl hgr hfw, if_pos (by omega), hscan]
    · have hsum := refundScanPC_sum sender (s.campaignDonations cid)
      have hraised := (H1 cid hcid).1
      simp only [refundApply, updFn, if_pos rfl, if_true]
      omega
    · simp only [refundApply, updFn, if_pos rfl, if_true]
      exact refundScanPC_snd_eq_map sender (s.campaignDonations cid)

theorem refund_computes_callers_nonzeroed_sum_witness :
    ∃ s', refund sW2 0 2 90000
            = .ok (callerRefundableSum 2 (sW2.campaignDonations 0), s') ∧
      (s'.campaigns 0).raised + callerRefundableSum 2 (sW2.campaignDonations 0)
        = (sW2.campaigns 0).raised ∧
      s'.campaignDonations 0
        = (sW2.campaignDonations 0).map
            (fun d => if d.donor = 2 then { d with amount := 0 } else d) :=
  (refund_computes_callers_nonzeroed_sum reachable_sW2 0 2 90000
      (by decide) (by decide) (by decide) (by decide) (by decide)).2.2
    (by decide)

/-- C5: along every operation from a reachable state, `goalReached` never
moves from true to false, and a donate call leaves it equal to its old
value or-ed with whether the new total meets the goal — so the first
donate crossing the goal sets it, exactly once, and nothing resets it. -/
theorem goalReached_set_once_and_monotone {s s' : CFState}
    (hr : Reachable s) (h : Step s s') (cid : Nat) :
    ((s.campaigns cid).goalReached = true →
       (s'.campaigns cid).goalReached = true) ∧
    (∀ sender amt anon now,
       donate s cid sender amt anon now = .ok s' →
       (s'.campaigns cid).goalReached
         = ((s.campaigns cid).goalReached
             || decide ((s.campaigns cid).goal
                          ≤ (s.campaigns cid).raised + amt))) := by
  obtain ⟨H1, H2, H3, H4⟩ := inv_reachable hr
  constructor
  · intro hgr
    cases h with
    | create heq =>
      obtain ⟨_, _, _, _, _, _, hs'⟩ := createCampaign_ok heq
      subst hs'
      by_cases hx : cid = s.campaignCounter
      · subst hx
        rw [H4 _ le_rfl] at hgr
        exact absurd hgr (by simp [zeroCampaign])
      · simp only [createApply, updFn]
        rw [if_neg hx]
        exact hgr
    | don heq =>
      rename_i cid0 sender0 amt0 anon0 now0
      obtain ⟨_, _, _, _, hs'⟩ := donate_ok heq
      subst hs'
      by_cases hx : cid = cid0
      · subst hx
        rw [(donateApply_campaigns_target s cid sender0 amt0 anon0 now0).2.2.1,
            hgr]
        simp
      · rw [donateApply_campaigns_other (by omega)]
        exact hgr
    | withdraw heq =>
      rename_i cid0 sender0 amt0
      obtain ⟨_, _, hgr0, _, _, _, hs'⟩ := withdrawFunds_ok heq
      subst hs'
      by_cases hx : cid = cid0
      · subst hx
        simp only [withdrawApply, updFn, if_pos rfl, if_true]
        exact hgr0
      · simp only [withdrawApply, updFn]
        rw [if_neg hx]
        exact hgr
    | ref heq =>
      rename_i cid0 sender0 now0 amt0
      obtain ⟨_, _, _, _, _, _, hs'⟩ := refund_ok heq
      subst hs'
      by_cases hx : cid = cid0
      · subst hx
        simp only [refundApply, updFn, if_pos rfl, if_true]
        exact hgr
      · simp only [refundApply, updFn]
        rw [if_neg hx]
        exact hgr
    | pause heq =>
      rename_i cid0 sender0
      obtain ⟨_, _, hs'⟩ := emergencyPause_ok heq
      subst hs'
      by_cases hx : cid = cid0
      · subst hx
        simp only [updFn, if_pos rfl, if_true]
        exact hgr
      · simp only [updFn]
        rw [if_neg hx]
        exact hgr
  · intro sender amt anon now heq2
    obtain ⟨_, _, _, _, hs'⟩ := donate_ok heq2
    subst hs'
    exact (donateApply_campaigns_target s cid sender amt anon now).2.2.1

theorem goalReached_set_once_and_monotone_witness :
    (sX2.campaigns 0).goalReached
      = ((sX1.campaigns 0).goalReached
          || decide ((sX1.campaigns 0).goal ≤ (sX1.campaigns 0).raised + 200)) :=
  (goalReached_set_once_and_monotone reachable_sX1 (Step.don donX2) 0).2
    2 200 false 5 donX2

/-- C8: in every reachable state `fundsWithdrawn` implies `goalReached`;
along every operation `fundsWithdrawn` is monotone (so it turns true at
most once per campaign), and a false-to-true transition only happens
through a `withdrawFunds` call made while `goalReached` was true. -/
theorem fundsWithdrawn_once_and_implies_goal {s s' : CFState}
    (hr : Reachable s) :
    (∀ cid, (s.campaigns cid).fundsWithdrawn = true →
        (s.campaigns cid).goalReached = true) ∧
    (Step s s' → ∀ cid,
        ((s.campaigns cid).fundsWithdrawn = true →
           (s'.campaigns cid).fundsWithdrawn = true) ∧
        ((s.campaigns cid).fundsWithdrawn = false →
         (s'.campaigns cid).fundsWithdrawn = true →
           (s.campaigns cid).goalReached = true ∧
           ∃ sender amt, withdrawFunds s cid sender = .ok (amt, s'))) := by
  obtain ⟨H1, H2, H3, H4⟩ := inv_reachable hr
  constructor
  · intro cid hfw
    by_cases hc : cid < s.campaignCounter
    · exact (H1 cid hc).2.2.2 hfw
    · rw [H4 cid (by omega)] at hfw
      exact absurd hfw (by simp [zeroCampaign])
  · intro h cid
    cases h with
    | create heq =>
      obtain ⟨_, _, _, _, _, _, hs'⟩ := createCampaign_ok heq
      subst hs'
      by_cases hx : cid = s.campaignCounter
      · subst hx
        rw [H4 _ le_rfl]
        constructor
        · intro hfw
          exact absurd hfw (by simp [zeroCampaign])
        · intro _ hfw'
          simp only [createApply, updFn, if_pos rfl, if_true] at hfw'
          exact absurd hfw' (by simp)
      · simp only [createApply, updFn]
        rw [if_neg hx]
        exact ⟨fun hfw => hfw, fun hfw hfw' => absurd (hfw ▸ hfw') (by simp)⟩
    | don heq =>
      rename_i cid0 sender0 amt0 anon0 now0
      obtain ⟨_, _, _, _, hs'⟩ := donate_ok heq
      subst hs'
      by_cases hx : cid = cid0
      · subst hx
        rw [(donateApply_campaigns_target s cid sender0 amt0 anon0 now0).2.2.2.1]
        exact ⟨fun hfw => hfw, fun hfw hfw' => absurd (hfw ▸ hfw') (by simp)⟩
      · rw [donateApply_campaigns_other (by omega)]
        exact ⟨fun hfw => hfw, fun hfw hfw' => absurd (hfw ▸ hfw') (by simp)⟩
    | withdraw heq =>
      rename_i cid0 sender0 amt0
      obtain ⟨hcid0, hcr, hgr0, hfw0, hraised, hamt, hs'⟩ := withdrawFunds_ok heq
      by_cases hx : cid = cid0
      · subst hx
        constructor
        · intro _
          rw [hs']
          simp [withdrawApply, updFn]
        · intro _ _
          exact ⟨hgr0, sender0, amt0, heq⟩
      · rw [hs']
        simp only [withdrawApply, updFn]
        rw [if_neg hx]
        exact ⟨fun hfw => hfw, fun hfw hfw' => absurd (hfw ▸ hfw') (by simp)⟩
    | ref heq =>
      rename_i cid0 sender0 now0 amt0
      obtain ⟨_, _, _, _, _, _, hs'⟩ := refund_ok heq
      subst hs'
      by_cases hx : cid = cid0
      · subst hx
        simp only [refundApply, updFn, if_pos rfl, if_true]
        exact ⟨fun hfw => hfw, fun hfw hfw' => absurd (hfw ▸ hfw') (by simp)⟩
      · simp only [refundApply, updFn]
        rw [if_neg hx]
        exact ⟨fun hfw => hfw, fun hfw hfw' => absurd (hfw ▸ hfw') (by simp)⟩
    | pause heq =>
      rename_i cid0 sender0
      obtain ⟨_, _, hs'⟩ := emergencyPause_ok heq
      subst hs'
      by_cases hx : cid = cid0
      · subst hx
        simp only [updFn, if_pos rfl, if_true]
        exact ⟨fun hfw => hfw, fun hfw hfw' => absurd (hfw ▸ hfw') (by simp)⟩
      · simp only [updFn]
        rw [if_neg hx]
        exact ⟨fun hfw => hfw, fun hfw hfw' => absurd (hfw ▸ hfw') (by simp)⟩

theorem fundsWithdrawn_once_and_implies_goal_witness :
    (sX2.campaigns 0).goalReached = true ∧
    ∃ sender amt, withdrawFunds sX2 0 sender = .ok (amt, sX3) :=
  ((fundsWithdrawn_once_and_implies_goal reachable_sX2).2
      (Step.withdraw withX3) 0).2 (by decide) (by decide)

/-- C10: in every reachable state a campaign with `goalReached` set has
positive `raised`, so the NothingToWithdraw branch of withdrawFunds can
never be taken. -/
theorem nothingToWithdraw_branch_unreachable {s : CFState}
    (h : Reachable s) :
    (∀ cid, cid < s.campaignCounter →
        (s.campaigns cid).goalReached = true →
        0 < (s.campaigns cid).raised) ∧
    (∀ cid sender,
        withdrawFunds s cid sender ≠ .error .NothingToWithdraw) := by
  obtain ⟨H1, _, _, _⟩ := inv_reachable h
  refine ⟨fun cid hc => (H1 cid hc).2.2.1, ?_⟩
  intro cid sender hbad
  unfold withdrawFunds at hbad
  split at hbad
  · split at hbad
    · split at hbad
      · split at hbad
        · simp at hbad
        · split at hbad
          · exact Except.noConfusion hbad
          · rename_i h1 h2 h3 h4 h5
            exact h5 ((H1 cid h1).2.2.1 h3)
      · simp at hbad
    · simp at hbad
  · simp at hbad

theorem nothingToWithdraw_branch_unreachable_witness :
    withdrawFunds sX2 0 1 ≠ .error .NothingToWithdraw :=
  (nothingToWithdraw_branch_unreachable reachable_sX2).2 0 1
